import Mathlib

set_option maxRecDepth 16384

/-!
Shallow embedding of the `voiceroom` music bot (`src/voiceroom/ingribo.py`).

The embedding translates the session data model (`GuildMusicPlayer`), the
completion handler (`handle_after_track`), the skip command (`skip_track`),
the leave command (`out`), the reaction-selection handler
(`on_raw_reaction_add`), the session store (`get_player`), and the track
resolver (`build_ydl_opts`, `_ytdlp_search_one_sync`, `_ytdlp_from_url_sync`,
`get_track_info`, the relevant part of `play`).

External collaborators are modelled at their boundary:
  * the discord voice client is a record of a connected flag and an optional
    channel (name + member list);
  * `yt_dlp.YoutubeDL.extract_info` is an oracle function passed as a
    parameter, returning either a raw info dictionary or one of the two
    exception types the source catches;
  * wall-clock time (`time.time()`) is a rational parameter `now`.

Python dictionaries that may lack keys are modelled with `Option` fields;
Python truthiness tests on numbers are translated as explicit
`≠ 0` / `isSome` conditions; mutation of a dict that is aliased between the
resolver cache and the queue is modelled with an explicit heap of tracks
addressed by natural-number references.
-/

/-- Association-list lookup, modelling Python `dict` membership plus
indexing (`k in d` / `d[k]`). -/
def list_lookup {κ α : Type} [DecidableEq κ] : List (κ × α) → κ → Option α
  | [], _ => none
  | (k1, v) :: rest, k => if k1 = k then some v else list_lookup rest k

/-- Position of a string in a list, modelling Python `list.index` (callers
guard membership first; on a missing element the result is the length). -/
def list_index_of (x : String) : List String → Nat
  | [] => 0
  | y :: ys => if y = x then 0 else list_index_of x ys + 1

/-- A voice-channel member; `bot` is `discord.Member.bot`. -/
structure Member where
  bot : Bool
deriving DecidableEq

/-- A voice channel: its name and its member list. -/
structure Channel where
  name : String
  members : List Member
deriving DecidableEq

/-- The transport handle (`discord.VoiceClient`): whether it is connected and
which channel (if any) it is attached to. -/
structure VoiceClient where
  connected : Bool
  channel : Option Channel
deriving DecidableEq

/-- A track dictionary as built by the resolver helpers: the four keys
`webpage_url`, `url`, `title`, `duration` are set at resolution time, while
`requester` (set by the `play` command / reaction handler) and `start_time`
(set by `start_playback`) are absent until those operations run. -/
structure Track where
  webpage_url : Option String := none
  url : Option String := none
  title : String := "Unknown Title"
  duration : Option ℚ := none
  requester : Option String := none
  start_time : Option ℚ := none
deriving DecidableEq, Inhabited

/-- Per-guild session state (`GuildMusicPlayer.__init__`). -/
structure GuildMusicPlayer where
  guild_id : Nat
  queue : List Track := []
  playing : Bool := false
  search_results : List (Nat × List Track) := []
deriving DecidableEq

/-- `GuildMusicPlayer.add_to_queue`: `self.queue.append(track)`. -/
def add_to_queue (p : GuildMusicPlayer) (track : Track) : GuildMusicPlayer :=
  { p with queue := p.queue ++ [track] }

/-- `GuildMusicPlayer.has_next_track`: `len(self.queue) > 0`. -/
def has_next_track (p : GuildMusicPlayer) : Bool :=
  decide (0 < p.queue.length)

/-- `GuildMusicPlayer.pop_next_track`: `self.queue.pop(0)` when non-empty,
otherwise `None`; returns the popped element and the updated player. -/
def pop_next_track (p : GuildMusicPlayer) : Option Track × GuildMusicPlayer :=
  match p.queue with
  | [] => (none, p)
  | t :: rest => (some t, { p with queue := rest })

/-- The session store (`players` dict) as an association list. -/
def get_player (players : List (Nat × GuildMusicPlayer)) (guild_id : Nat) :
    List (Nat × GuildMusicPlayer) × GuildMusicPlayer :=
  match list_lookup players guild_id with
  | some p => (players, p)
  | none =>
      let fresh : GuildMusicPlayer := { guild_id := guild_id }
      ((guild_id, fresh) :: players, fresh)

/-- `voice_channel_is_empty`: true when the client is absent, has no channel,
or every channel member is a bot. -/
def voice_channel_is_empty (vc : Option VoiceClient) : Bool :=
  match vc with
  | none => true
  | some v =>
      match v.channel with
      | none => true
      | some ch => ch.members.all (fun m => m.bot)

/-- The `play_time` computation in `handle_after_track`:
`(time.time() - start_time) if start_time else None`.  A `start_time` of `0`
is falsy in Python, hence yields `None`. -/
def play_time_of (now : ℚ) (track : Track) : Option ℚ :=
  match track.start_time with
  | none => none
  | some st => if st = 0 then none else some (now - st)

/-- The `normal_end` test of `handle_after_track`:
`duration_ok = duration and play_time`;
`normal_end = duration_ok and (play_time >= duration * 0.8)`.
Python truthiness makes a duration of `0` or an elapsed time of `0`
behave like a missing value. -/
def normal_end_cond (now : ℚ) (track : Track) : Bool :=
  match track.duration, play_time_of now track with
  | some d, some pt => decide (d ≠ 0) && decide (pt ≠ 0) && decide (d * (4 / 5) ≤ pt)
  | _, _ => false

/-- Result of one run of the completion handler: the updated player, the
final connected flag of the transport, and the track (if any) handed to
`start_playback` (which stamps `start_time` with the current time). -/
structure AfterResult where
  player : GuildMusicPlayer
  connected : Bool
  started : Option Track
deriving DecidableEq

/-- `handle_after_track(vc, guild_player, track)`: (1) if the room is empty,
set `playing = False` and disconnect; (2) else if the queue is non-empty, pop
its head and start it (the `has_next_track` guard plus `pop_next_track` is
rendered as a match on the queue); (3) else set `playing = False` and
disconnect only on a normal end. -/
def handle_after_track (now : ℚ) (vc : VoiceClient) (p : GuildMusicPlayer)
    (track : Track) : AfterResult :=
  if voice_channel_is_empty (some vc) then
    { player := { p with playing := false }, connected := false, started := none }
  else
    match p.queue with
    | next_track :: rest =>
        { player := { p with queue := rest }
          connected := vc.connected
          started := some { next_track with start_time := some now } }
    | [] =>
        { player := { p with playing := false }
          connected := if normal_end_cond now track then false else vc.connected
          started := none }

/-- Claim C2: when the completion handler fires and the voice channel holds
no non-bot participant, the session ends with `playing = false`, the
transport disconnected, and the queue untouched (even if non-empty) — the
room-empty check precedes and overrides the has-next check, so no queued
track is started into an empty room. -/
theorem handle_after_track_room_empty (now : ℚ) (vc : VoiceClient)
    (p : GuildMusicPlayer) (track : Track)
    (h : voice_channel_is_empty (some vc) = true) :
    handle_after_track now vc p track =
      { player := { p with playing := false }, connected := false, started := none } := by
  unfold handle_after_track
  rw [h]
  simp

/-- Witness for `handle_after_track_room_empty`: a connected client in a
channel whose only member is a bot, with one queued track; the handler
leaves the queue untouched, clears `playing`, and disconnects. -/
theorem handle_after_track_room_empty_witness :
    voice_channel_is_empty (some ⟨true, some ⟨"general", [⟨true⟩]⟩⟩) = true ∧
    handle_after_track 50 ⟨true, some ⟨"general", [⟨true⟩]⟩⟩
        ⟨1, [{ title := "B" }], true, []⟩ { title := "A" } =
      { player := ⟨1, [{ title := "B" }], false, []⟩, connected := false, started := none } :=
  ⟨by decide, handle_after_track_room_empty 50 _ _ _ (by decide)⟩

/-- The normal-end classification exactly as the spec words it: duration and
elapsed play time are both known (present) and elapsed is at least 0.8 of
the duration.  Used to compare the spec sentence with the code's
truthiness-based test `normal_end_cond`. -/
def normal_end_spec (now : ℚ) (track : Track) : Prop :=
  ∃ d st, track.duration = some d ∧ track.start_time = some st ∧
    d * (4 / 5) ≤ now - st

/-- The normal-end classification the code actually implements, stated
declaratively: duration and start timestamp present and nonzero, elapsed
nonzero, and elapsed at least 0.8 of the duration. -/
def normal_end_amended (now : ℚ) (track : Track) : Prop :=
  ∃ d st, track.duration = some d ∧ track.start_time = some st ∧
    d ≠ 0 ∧ st ≠ 0 ∧ now - st ≠ 0 ∧ d * (4 / 5) ≤ now - st

/-- The boolean test in `handle_after_track` agrees with the declarative
reading `normal_end_amended`. -/
theorem normal_end_cond_iff (now : ℚ) (track : Track) :
    normal_end_cond now track = true ↔ normal_end_amended now track := by
  unfold normal_end_cond normal_end_amended play_time_of
  cases hd : track.duration with
  | none => simp
  | some d =>
      cases hst : track.start_time with
      | none => simp
      | some st =>
          by_cases hz : st = 0
          · simp [hz]
          · simp only [hz, if_false]
            constructor
            · intro h
              simp only [Bool.and_eq_true, decide_eq_true_eq] at h
              exact ⟨d, st, rfl, rfl, h.1.1, hz, h.1.2, h.2⟩
            · rintro ⟨d1, st1, hd1, hst1, hd0, _, hpt0, hge⟩
              cases hd1
              cases hst1
              simp only [Bool.and_eq_true, decide_eq_true_eq]
              exact ⟨⟨hd0, hpt0⟩, hge⟩

/-- Counterexample to claim C3: a track whose reported duration is known but
zero (`duration = some 0`, falsy in Python) with elapsed time 40 satisfies
the claim's normal-end condition (40 ≥ 0.8 × 0), yet the code classifies the
end as abnormal and leaves the transport connected instead of
disconnecting. -/
theorem claim_c3_counterexample :
    normal_end_spec 50 { title := "A", duration := some 0, start_time := some 10 } ∧
    voice_channel_is_empty (some ⟨true, some ⟨"general", [⟨false⟩]⟩⟩) = false ∧
    (handle_after_track 50 ⟨true, some ⟨"general", [⟨false⟩]⟩⟩ ⟨1, [], true, []⟩
        { title := "A", duration := some 0, start_time := some 10 }).connected = true := by
  refine ⟨⟨0, 10, rfl, rfl, by norm_num⟩, by decide, by decide⟩

/-- Claim C3 as amended: with participants present and an empty queue, the
completion handler clears `playing` and starts nothing; it disconnects the
transport exactly when the end is normal in the code's sense — duration and
start timestamp known and nonzero, elapsed nonzero, and elapsed at least
0.8 of the duration — and otherwise stays connected. -/
theorem handle_after_track_idle_end (now : ℚ) (vc : VoiceClient)
    (p : GuildMusicPlayer) (track : Track)
    (hroom : voice_channel_is_empty (some vc) = false)
    (hq : p.queue = [])
    (hc : vc.connected = true) :
    (handle_after_track now vc p track).player =
        { p with playing := false } ∧
    (handle_after_track now vc p track).started = none ∧
    ((handle_after_track now vc p track).connected = false ↔
        normal_end_amended now track) := by
  unfold handle_after_track
  rw [hroom, hq, ← normal_end_cond_iff]
  cases hne : normal_end_cond now track <;> simp [hne, hc]

/-- Witness for `handle_after_track_idle_end`: duration 200, elapsed 40
(ratio 0.2 < 0.8), queue empty, one human in the room, transport connected;
the handler leaves the session idle and the transport connected. -/
theorem handle_after_track_idle_end_witness :
    voice_channel_is_empty (some ⟨true, some ⟨"general", [⟨false⟩]⟩⟩) = false ∧
    (GuildMusicPlayer.queue ⟨1, [], true, []⟩ = []) ∧
    (handle_after_track 50 ⟨true, some ⟨"general", [⟨false⟩]⟩⟩ ⟨1, [], true, []⟩
        { title := "A", duration := some 200, start_time := some 10 }).player =
      { guild_id := 1, queue := [], playing := false, search_results := [] } ∧
    (handle_after_track 50 ⟨true, some ⟨"general", [⟨false⟩]⟩⟩ ⟨1, [], true, []⟩
        { title := "A", duration := some 200, start_time := some 10 }).started = none ∧
    ((handle_after_track 50 ⟨true, some ⟨"general", [⟨false⟩]⟩⟩ ⟨1, [], true, []⟩
        { title := "A", duration := some 200, start_time := some 10 }).connected = false ↔
      normal_end_amended 50 { title := "A", duration := some 200, start_time := some 10 }) :=
  ⟨by decide, rfl,
    handle_after_track_idle_end 50 _ _ _ (by decide) rfl rfl⟩

/-- The tail of the `skip` command (`skip_track`, after `vc.stop()` and the
0.5 s sleep): if the queue is non-empty, pop its head, set `playing = True`
and start it; otherwise set `playing = False` and disconnect.  The
`has_next_track` guard plus `pop_next_track` is rendered as a match on the
queue. -/
def skip_advance (now : ℚ) (vc : VoiceClient) (p : GuildMusicPlayer) : AfterResult :=
  match p.queue with
  | next_track :: rest =>
      { player := { p with queue := rest, playing := true }
        connected := vc.connected
        started := some { next_track with start_time := some now } }
  | [] =>
      { player := { p with playing := false }, connected := false, started := none }

/-- Observable transport events: a `vc.play` call issued for a track, and a
completion signal (the `after` callback the transport fires when the current
track stops for any reason). -/
inductive Ev where
  | startCall (title : String)
  | completionSignal (title : String)
deriving DecidableEq

/-- Joint state of the transport client and the session during the skip
scenario. -/
structure Sys where
  vc : VoiceClient
  p : GuildMusicPlayer
  now : ℚ

/-- Run the scheduled `handle_after_track` task on the system state,
recording a `startCall` event when it hands a track to `start_playback`. -/
def run_after_step (s : Sys) (track : Track) : Sys × List Ev :=
  let r := handle_after_track s.now s.vc s.p track
  ({ s with p := r.player, vc := { s.vc with connected := r.connected } },
    match r.started with
    | some t => [Ev.startCall t.title]
    | none => [])

/-- Run the resumed tail of `skip_track` on the system state, recording a
`startCall` event when it hands a track to `start_playback`. -/
def run_skip_adv_step (s : Sys) : Sys × List Ev :=
  let r := skip_advance s.now s.vc s.p
  ({ s with p := r.player, vc := { s.vc with connected := r.connected } },
    match r.started with
    | some t => [Ev.startCall t.title]
    | none => [])

/-- Event trace of a `skip` command on a playing track `cur`:
`vc.stop()` makes the transport fire the completion callback for `cur`,
which schedules `handle_after_track` onto the loop; both that task and the
remainder of `skip_track` then sleep 0.5 s and resume in either order
(`after_first` selects the order). -/
def skip_interleaving (s : Sys) (cur : Track) (after_first : Bool) : List Ev :=
  Ev.completionSignal cur.title ::
    (if after_first then
      let r1 := run_after_step s cur
      r1.2 ++ (run_skip_adv_step r1.1).2
    else
      let r1 := run_skip_adv_step s
      r1.2 ++ (run_after_step r1.1 cur).2)

/-- True when the trace continues with a start call before any completion
signal. -/
def start_before_completion : List Ev → Bool
  | [] => false
  | Ev.startCall _ :: _ => true
  | Ev.completionSignal _ :: _ => false

/-- True when the trace contains two start calls with no completion signal
between them. -/
def has_double_start : List Ev → Bool
  | [] => false
  | Ev.startCall _ :: rest => start_before_completion rest || has_double_start rest
  | Ev.completionSignal _ :: rest => has_double_start rest

/-- Counterexample to claim C1: a session playing track A with queue [B, C]
and a human in the room; after a `skip`, both interleavings of the resumed
skip tail with the completion handler produce two start calls (two queue
pops) with no completion signal between them — the skip handler itself
advances the queue in addition to the completion path. -/
theorem claim_c1_counterexample :
    has_double_start (skip_interleaving
      ⟨⟨true, some ⟨"general", [⟨false⟩]⟩⟩,
        ⟨1, [{ title := "B" }, { title := "C" }], true, []⟩, 50⟩
      { title := "A", duration := some 200, start_time := some 10 } true) = true ∧
    has_double_start (skip_interleaving
      ⟨⟨true, some ⟨"general", [⟨false⟩]⟩⟩,
        ⟨1, [{ title := "B" }, { title := "C" }], true, []⟩, 50⟩
      { title := "A", duration := some 200, start_time := some 10 } false) = true := by
  constructor <;> decide

/-- Changing only the connected flag of a client does not change whether its
channel is empty. -/
theorem voice_channel_is_empty_connected_irrel (vc : VoiceClient) (c : Bool) :
    voice_channel_is_empty (some { vc with connected := c }) =
      voice_channel_is_empty (some vc) := by
  cases vc
  rfl

/-- Claim C1 as amended: `skip` is not merely a trigger of the completion
path — its handler also pops and starts the next track itself after the
stop, concurrently with the completion handler the stop schedules; whenever
at least two tracks are queued and the room is non-empty, every interleaving
of the two resumed tasks yields two start calls (two queue pops) with no
completion signal between them. -/
theorem skip_double_start (s : Sys) (cur : Track) (after_first : Bool)
    (hroom : voice_channel_is_empty (some s.vc) = false)
    (hq : 2 ≤ s.p.queue.length) :
    has_double_start (skip_interleaving s cur after_first) = true := by
  obtain ⟨t1, t2, rest, hqs⟩ : ∃ t1 t2 rest, s.p.queue = t1 :: t2 :: rest := by
    cases hq1 : s.p.queue with
    | nil => rw [hq1] at hq; simp at hq
    | cons t1 tl =>
        cases hq2 : tl with
        | nil => rw [hq1, hq2] at hq; simp at hq
        | cons t2 rest => exact ⟨t1, t2, rest, rfl⟩
  cases after_first <;>
    simp [skip_interleaving, run_after_step, run_skip_adv_step,
      handle_after_track, skip_advance, hqs, hroom,
      voice_channel_is_empty_connected_irrel,
      has_double_start, start_before_completion]

/-- Witness for `skip_double_start`: the concrete [B, C] scenario with the
completion handler resuming first. -/
theorem skip_double_start_witness :
    voice_channel_is_empty (some ⟨true, some ⟨"general", [⟨false⟩]⟩⟩) = false ∧
    2 ≤ (GuildMusicPlayer.queue ⟨1, [{ title := "B" }, { title := "C" }], true, []⟩).length ∧
    has_double_start (skip_interleaving
      ⟨⟨true, some ⟨"general", [⟨false⟩]⟩⟩,
        ⟨1, [{ title := "B" }, { title := "C" }], true, []⟩, 50⟩
      { title := "A" } true) = true :=
  ⟨by decide, by decide,
    skip_double_start _ { title := "A" } true (by decide) (by decide)⟩

/-- Messages the `out` command can produce. -/
inductive OutMsg where
  | bye (channel_name : Option String)
  | not_in_channel
deriving DecidableEq

/-- The `out` command (explicit leave): when a connected voice client exists,
disconnect it, clear the queue and reset `playing`; otherwise only report
that the bot is not in a voice channel, leaving the session untouched. -/
def out (vc : Option VoiceClient) (p : GuildMusicPlayer) :
    GuildMusicPlayer × Option VoiceClient × OutMsg :=
  match vc with
  | some v =>
      if v.connected then
        ({ p with queue := [], playing := false },
          some { v with connected := false },
          OutMsg.bye (v.channel.map Channel.name))
      else (p, some v, OutMsg.not_in_channel)
  | none => (p, none, OutMsg.not_in_channel)

/-- Counterexample to claim C7: with no transport connected (a reachable
situation: a `play` request enqueues its track before the voice connect is
attempted, and the connect fails when the requester is not in a voice
channel), the `out` command leaves the non-empty queue untouched instead of
clearing it. -/
theorem claim_c7_counterexample :
    (out none ⟨1, [{ title := "B" }], false, []⟩).1.queue = [{ title := "B" }] ∧
    ([{ title := "B" }] : List Track) ≠ [] ∧
    (out none ⟨1, [{ title := "B" }], false, []⟩).1 = ⟨1, [{ title := "B" }], false, []⟩ := by
  refine ⟨rfl, by decide, rfl⟩

/-- Claim C7 as amended: whenever a connected transport exists, the explicit
leave disconnects it, clears the queue and sets `playing = false`,
regardless of the session's prior `Idle`/`Playing` state and queue contents;
with no connected transport the session is left unchanged and only a
"not in a voice channel" notice is produced. -/
theorem out_leave (v : VoiceClient) (p : GuildMusicPlayer)
    (h : v.connected = true) :
    out (some v) p =
      ({ p with queue := [], playing := false },
        some { v with connected := false },
        OutMsg.bye (v.channel.map Channel.name)) := by
  simp [out, h]

/-- Witness for `out_leave`: leaving while playing with a queued track clears
the queue and the playing flag and disconnects. -/
theorem out_leave_witness :
    VoiceClient.connected ⟨true, some ⟨"general", [⟨false⟩]⟩⟩ = true ∧
    out (some ⟨true, some ⟨"general", [⟨false⟩]⟩⟩) ⟨1, [{ title := "B" }], true, []⟩ =
      (⟨1, [], false, []⟩, some ⟨false, some ⟨"general", [⟨false⟩]⟩⟩,
        OutMsg.bye (some "general")) :=
  ⟨rfl, out_leave _ _ rfl⟩

/-- Claim C8: `add_to_queue` appends exactly one entry at the tail (length
+1) and changes nothing else — neither `playing` nor anything that could
start playback — and `pop_next_track` on a non-empty queue removes exactly
the head (length −1), leaving the rest in order. -/
theorem queue_conservation (p : GuildMusicPlayer) (t : Track) :
    (add_to_queue p t).queue = p.queue ++ [t] ∧
    (add_to_queue p t).queue.length = p.queue.length + 1 ∧
    (add_to_queue p t).playing = p.playing ∧
    (add_to_queue p t).search_results = p.search_results ∧
    (add_to_queue p t).guild_id = p.guild_id ∧
    (∀ x xs, p.queue = x :: xs →
      pop_next_track p = (some x, { p with queue := xs }) ∧
      xs.length + 1 = p.queue.length) := by
  refine ⟨rfl, by simp [add_to_queue], rfl, rfl, rfl, ?_⟩
  intro x xs hx
  constructor
  · unfold pop_next_track
    rw [hx]
  · rw [hx]
    rfl

/-- Witness for `queue_conservation`: enqueueing B after A and popping the
head on the concrete session. -/
theorem queue_conservation_witness :
    (add_to_queue ⟨1, [{ title := "A" }], false, []⟩ { title := "B" }).queue =
      [{ title := "A" }] ++ [{ title := "B" : Track }] ∧
    (GuildMusicPlayer.queue ⟨1, [{ title := "A" }], false, []⟩ = { title := "A" } :: []) ∧
    pop_next_track ⟨1, [{ title := "A" }], false, []⟩ =
      (some { title := "A" }, ⟨1, [], false, []⟩) :=
  ⟨(queue_conservation ⟨1, [{ title := "A" }], false, []⟩ { title := "B" }).1, rfl,
    ((queue_conservation ⟨1, [{ title := "A" }], false, []⟩ { title := "B" }).2.2.2.2.2
      { title := "A" } [] rfl).1⟩

/-- Claim C9: the session store's get never fails and is idempotent — the
first call lazily creates a fresh session, every later call with the same id
returns the stored session and leaves the store unchanged, and getting never
removes any existing entry. -/
theorem get_player_idempotent (players : List (Nat × GuildMusicPlayer)) (gid : Nat) :
    get_player (get_player players gid).1 gid = get_player players gid ∧
    list_lookup (get_player players gid).1 gid = some (get_player players gid).2 ∧
    (∀ k v, list_lookup players k = some v →
      list_lookup (get_player players gid).1 k = some v) := by
  unfold get_player
  cases hl : list_lookup players gid with
  | some p =>
      refine ⟨?_, ?_, ?_⟩
      · simp [hl]
      · simpa using hl
      · intro k v hv
        simpa using hv
  | none =>
      refine ⟨?_, ?_, ?_⟩
      · simp [list_lookup]
      · simp [list_lookup]
      · intro k v hv
        simp only [list_lookup]
        by_cases hk : gid = k
        · rw [hk] at hl
          rw [hl] at hv
          exact absurd hv (by simp)
        · rw [if_neg hk]
          exact hv

/-- Witness for `get_player_idempotent`: after a first get created session 7,
a second get returns the same stored session and preserves the other entry. -/
theorem get_player_idempotent_witness :
    get_player (get_player [(3, ⟨3, [{ title := "A" }], true, []⟩)] 7).1 7 =
      get_player [(3, ⟨3, [{ title := "A" }], true, []⟩)] 7 ∧
    list_lookup (get_player [(3, ⟨3, [{ title := "A" }], true, []⟩)] 7).1 3 =
      some ⟨3, [{ title := "A" }], true, []⟩ :=
  ⟨(get_player_idempotent [(3, ⟨3, [{ title := "A" }], true, []⟩)] 7).1,
    (get_player_idempotent [(3, ⟨3, [{ title := "A" }], true, []⟩)] 7).2.2 3 _ rfl⟩

/-- The five numbered reaction emojis (`EMOJI_CHOICES`). -/
def EMOJI_CHOICES : List String := ["1️⃣", "2️⃣", "3️⃣", "4️⃣", "5️⃣"]

/-- The fields of a `discord.RawReactionActionEvent` the handler reads. -/
structure Payload where
  user_id : Nat
  guild_id : Nat
  message_id : Nat
  channel_id : Nat
  emoji : String
deriving DecidableEq

/-- The guild member resolved from the payload (`guild.get_member`): display
name and, if currently in voice, the channel. -/
structure MemberEnv where
  display_name : String
  voice_channel : Option Channel
deriving DecidableEq

/-- The guild context the reaction handler consults: the resolved member,
the guild's current voice client, and whether `guild.get_channel` finds the
text channel of the payload. -/
structure GuildEnv where
  member : Option MemberEnv
  voice_client : Option VoiceClient
  channel_present : Bool
deriving DecidableEq

/-- Messages the reaction handler can send. -/
inductive ReactEv where
  | queueAddedMsg (position : Nat) (title : String)
  | nowPlayingMsg (title : String)
deriving DecidableEq

/-- Result of one run of the reaction handler: the updated session, the
voice client in use (if any), the track handed to `start_playback` (if any),
and the messages sent. -/
structure ReactResult where
  player : GuildMusicPlayer
  used_vc : Option VoiceClient
  started : Option Track
  events : List ReactEv
deriving DecidableEq

/-- `on_raw_reaction_add`: drop the event when it was left by the bot
itself, when the guild is unknown, when the message id has no registered
candidate list, when the emoji is not one of the five choices, or when the
choice index is out of range for the candidate list; otherwise build the
chosen track with the reactor as requester, enqueue it, announce it, and —
when not already playing — connect on demand (when possible) and start the
queue head. -/
def on_raw_reaction_add (bot_user_id : Nat) (guild : Option GuildEnv)
    (p : GuildMusicPlayer) (payload : Payload) (now : ℚ) : ReactResult :=
  if payload.user_id = bot_user_id then ⟨p, none, none, []⟩
  else
    match guild with
    | none => ⟨p, none, none, []⟩
    | some g =>
        match list_lookup p.search_results payload.message_id with
        | none => ⟨p, none, none, []⟩
        | some candidates =>
            if payload.emoji ∈ EMOJI_CHOICES then
              let choice_index := list_index_of payload.emoji EMOJI_CHOICES
              if candidates.length ≤ choice_index then ⟨p, none, none, []⟩
              else
                let chosen := candidates.getD choice_index default
                let requester_name :=
                  match g.member with
                  | some m => m.display_name
                  | none => "unknown"
                let track_info : Track :=
                  { webpage_url := chosen.webpage_url, url := chosen.url,
                    title := chosen.title, duration := chosen.duration,
                    requester := some requester_name, start_time := none }
                let p1 := add_to_queue p track_info
                if g.channel_present then
                  let evs := [ReactEv.queueAddedMsg p1.queue.length track_info.title]
                  if p1.playing then ⟨p1, none, none, evs⟩
                  else
                    let vc1 : Option VoiceClient :=
                      match g.voice_client with
                      | some v =>
                          if v.connected then some v
                          else
                            match g.member with
                            | some m =>
                                match m.voice_channel with
                                | some ch => some ⟨true, some ch⟩
                                | none => some v
                            | none => some v
                      | none =>
                          match g.member with
                          | some m =>
                              match m.voice_channel with
                              | some ch => some ⟨true, some ch⟩
                              | none => none
                          | none => none
                    match vc1 with
                    | some v =>
                        if v.connected then
                          match pop_next_track p1 with
                          | (some first_track, p2) =>
                              ⟨{ p2 with playing := true }, some v,
                                some { first_track with start_time := some now },
                                evs ++ [ReactEv.nowPlayingMsg first_track.title]⟩
                          | (none, p2) => ⟨{ p2 with playing := true }, some v, none, evs⟩
                        else ⟨p1, some v, none, evs⟩
                    | none => ⟨p1, none, none, evs⟩
                else ⟨p1, none, none, []⟩
            else ⟨p, none, none, []⟩

/-- Claim C6: a reaction event left by the bot itself, carrying an
unregistered prompt (message) id, or selecting an index out of range for the
registered candidate list is a silent no-op — the session is unchanged,
nothing is started, and no message (in particular no error message) is
sent. -/
theorem reaction_silent_noop (bot_user_id : Nat) (guild : Option GuildEnv)
    (p : GuildMusicPlayer) (payload : Payload) (now : ℚ)
    (h : payload.user_id = bot_user_id ∨
      list_lookup p.search_results payload.message_id = none ∨
      (∃ candidates, list_lookup p.search_results payload.message_id = some candidates ∧
        candidates.length ≤ list_index_of payload.emoji EMOJI_CHOICES)) :
    on_raw_reaction_add bot_user_id guild p payload now = ⟨p, none, none, []⟩ := by
  unfold on_raw_reaction_add
  by_cases h1 : payload.user_id = bot_user_id
  · simp [h1]
  · rw [if_neg h1]
    cases guild with
    | none => rfl
    | some g =>
        rcases h with h | h | h
        · exact absurd h h1
        · simp only [h]
        · obtain ⟨candidates, hc, hlen⟩ := h
          simp only [hc]
          by_cases h2 : payload.emoji ∈ EMOJI_CHOICES
          · simp [h2, hlen]
          · simp [h2]

/-- Witness for `reaction_silent_noop`: a registered 3-candidate prompt and
a reaction with the fifth emoji (choice index 4, out of range) leaves the
session untouched and sends nothing. -/
theorem reaction_silent_noop_witness :
    (∃ candidates,
      list_lookup (GuildMusicPlayer.search_results
          ⟨1, [], false, [(9, [{ title := "A" }, { title := "B" }, { title := "C" }])]⟩) 9 =
        some candidates ∧
      candidates.length ≤ list_index_of "5️⃣" EMOJI_CHOICES) ∧
    on_raw_reaction_add 2 (some ⟨none, none, true⟩)
        ⟨1, [], false, [(9, [{ title := "A" }, { title := "B" }, { title := "C" }])]⟩
        ⟨5, 1, 9, 4, "5️⃣"⟩ 50 =
      ⟨⟨1, [], false, [(9, [{ title := "A" }, { title := "B" }, { title := "C" }])]⟩,
        none, none, []⟩ :=
  ⟨⟨[{ title := "A" }, { title := "B" }, { title := "C" }], rfl, by decide⟩,
    reaction_silent_noop 2 (some ⟨none, none, true⟩) _ _ 50
      (Or.inr (Or.inr ⟨[{ title := "A" }, { title := "B" }, { title := "C" }], rfl, by decide⟩))⟩

/-- The environment the resolver reads: the `YTDLP_COOKIES` variable and
whether the file it names exists. -/
structure Env where
  ytdlp_cookies : Option String
  cookies_file_exists : Bool
deriving DecidableEq

/-- The fixed browser user-agent string `UA`. -/
def UA : String :=
  "Mozilla/5.0 (Windows NT 10.0; Win64; x64) AppleWebKit/537.36 (KHTML, like Gecko) Chrome/122.0.0.0 Safari/537.36"

/-- The yt-dlp option dictionary assembled by `build_ydl_opts`. -/
structure YdlOpts where
  format : String
  noplaylist : Bool
  quiet : Bool
  skip_download : Bool
  http_headers : List (String × String)
  player_client : List String
  retries : Nat
  file_access_retries : Nat
  fragment_retries : Nat
  geo_bypass : Bool
  default_search : Option String
  cookiefile : Option String
deriving DecidableEq

/-- `build_ydl_opts`: one fixed option set — a single upstream client
identity (`player_client = ["android"]`) with fixed headers, plus an
optional cookie file taken from the environment when the variable is set
(non-empty) and the file exists. -/
def build_ydl_opts (env : Env) (default_search : Option String) : YdlOpts :=
  { format := "bestaudio[ext=m4a]/bestaudio/best"
    noplaylist := true
    quiet := true
    skip_download := true
    http_headers :=
      [("User-Agent", UA),
        ("Accept-Language", "ko-KR,ko;q=0.9,en-US;q=0.8,en;q=0.7"),
        ("Referer", "https://www.youtube.com/")]
    player_client := ["android"]
    retries := 3
    file_access_retries := 2
    fragment_retries := 3
    geo_bypass := true
    default_search := default_search
    cookiefile :=
      match env.ytdlp_cookies with
      | some c => if c ≠ "" ∧ env.cookies_file_exists then some c else none
      | none => none }

/-- Strip a literal pattern from the front of a character list,
case-insensitively (the regex carries `re.IGNORECASE`); `none` when the
pattern does not match. -/
def strip_lit : List Char → List Char → Option (List Char)
  | [], cs => some cs
  | _ :: _, [] => none
  | p :: ps, c :: cs => if c.toLower = p then strip_lit ps cs else none

/-- `YOUTUBE_URL_REGEX.match(query)`: case-insensitive, anchored at the
start — an optional `http://`/`https://` scheme, an optional `www.`, one of
the two domains, a slash, then at least one character (which `.` requires to
be different from a newline). -/
def youtube_url_match (q : String) : Bool :=
  let l := q.data
  let l1 :=
    match strip_lit "https://".data l with
    | some r => r
    | none =>
        match strip_lit "http://".data l with
        | some r => r
        | none => l
  let l2 :=
    match strip_lit "www.".data l1 with
    | some r => r
    | none => l1
  let rest1 :=
    match strip_lit "youtube.com/".data l2 with
    | some r => some r
    | none => strip_lit "youtu.be/".data l2
  match rest1 with
  | some (c :: _) => decide (c ≠ '\n')
  | some [] => false
  | none => false

/-- The two upstream exception types the resolver helpers catch
(`yt_dlp.utils.DownloadError`, `yt_dlp.utils.ExtractorError`), carrying
their message. -/
inductive UpErr where
  | downloadError (msg : String)
  | extractorError (msg : String)
deriving DecidableEq

/-- Message text of an upstream error (Python `str(e)` as used in the
f-strings). -/
def up_err_msg : UpErr → String
  | .downloadError m => m
  | .extractorError m => m

/-- Errors a resolution can raise: the classified `RuntimeError` the helpers
build from a caught upstream failure (keeping the cause via `raise … from e`),
or the unclassified `IndexError` escaping from `info["entries"][0]`. -/
inductive ResolveErr where
  | runtimeError (msg : String) (cause : UpErr)
  | indexError
deriving DecidableEq

/-- True exactly for the classified error the source's `except` clauses
produce. -/
def is_classified : ResolveErr → Bool
  | .runtimeError _ _ => true
  | .indexError => false

/-- One entry of an `extract_info` result, with the four keys the helpers
read (each possibly absent). -/
structure RawEntry where
  webpage_url : Option String
  url : Option String
  title : Option String
  duration : Option ℚ
deriving DecidableEq

/-- A raw `extract_info` result: the four direct keys plus the optional
`entries` list a search returns. -/
structure RawInfo where
  webpage_url : Option String
  url : Option String
  title : Option String
  duration : Option ℚ
  entries : Option (List RawEntry)
deriving DecidableEq

/-- The track dictionary the helpers build from an info/entry record
(`info.get(...)` with the `"Unknown Title"` default). -/
def track_of_entry (e : RawEntry) : Track :=
  { webpage_url := e.webpage_url, url := e.url,
    title := e.title.getD "Unknown Title", duration := e.duration }

/-- The direct keys of an info record viewed as an entry. -/
def info_entry (i : RawInfo) : RawEntry :=
  ⟨i.webpage_url, i.url, i.title, i.duration⟩

/-- `_ytdlp_search_one_sync`: one `extract_info` call under the single
option set (with `default_search = "ytsearch"`); when the result carries an
`entries` key, take its first element — on an empty list this raises an
`IndexError` that the `except (DownloadError, ExtractorError)` clause does
not catch; caught upstream failures become a `RuntimeError` keeping the
cause. -/
def ytdlp_search_one_sync (extract : YdlOpts → String → Except UpErr RawInfo)
    (env : Env) (query : String) : Except ResolveErr Track :=
  let ydl_opts := build_ydl_opts env (some "ytsearch")
  match extract ydl_opts query with
  | .error e => .error (.runtimeError ("yt-dlp search failed: " ++ up_err_msg e) e)
  | .ok info =>
      match info.entries with
      | some [] => .error .indexError
      | some (e0 :: _) => .ok (track_of_entry e0)
      | none => .ok (track_of_entry (info_entry info))

/-- `_ytdlp_from_url_sync`: one `extract_info` call under the single option
set; caught upstream failures become a `RuntimeError` keeping the cause. -/
def ytdlp_from_url_sync (extract : YdlOpts → String → Except UpErr RawInfo)
    (env : Env) (url : String) : Except ResolveErr Track :=
  let ydl_opts := build_ydl_opts env none
  match extract ydl_opts url with
  | .error e => .error (.runtimeError ("yt-dlp url failed: " ++ up_err_msg e) e)
  | .ok info => .ok (track_of_entry (info_entry info))

/-- Resolver state: a heap of track dictionaries addressed by reference
(modelling Python object identity) and the `track_cache` mapping a raw query
string to the reference of its dict. -/
structure RState where
  heap : List Track
  cache : List (String × Nat)
deriving DecidableEq

/-- Read a track dict through its reference. -/
def heap_read (s : RState) (r : Nat) : Track :=
  s.heap.getD r default

/-- Mutate a track dict in place through its reference (a Python
`d[key] = value`). -/
def heap_modify (s : RState) (r : Nat) (f : Track → Track) : RState :=
  { s with heap := s.heap.set r (f (heap_read s r)) }

/-- Allocate a fresh track dict, returning its reference. -/
def heap_alloc (s : RState) (t : Track) : RState × Nat :=
  ({ s with heap := s.heap ++ [t] }, s.heap.length)

/-- Outcome of `get_track_info`: the returned reference (or the propagated
error), the updated resolver state, and how many upstream `extract_info`
calls were made. -/
structure ResolveOut where
  result : Except ResolveErr Nat
  state : RState
  upstream_calls : Nat

/-- `get_track_info`: consult `track_cache` first and return the stored dict
itself on a hit (no upstream call); on a miss, route by the URL pattern,
make one upstream attempt, and on success store the returned dict in the
cache (the cache entry and the returned value are the same object); a
failure is propagated and caches nothing. -/
def get_track_info (extract : YdlOpts → String → Except UpErr RawInfo)
    (env : Env) (s : RState) (query : String) : ResolveOut :=
  match list_lookup s.cache query with
  | some r => ⟨.ok r, s, 0⟩
  | none =>
      let res :=
        if youtube_url_match query then ytdlp_from_url_sync extract env query
        else ytdlp_search_one_sync extract env query
      match res with
      | .ok t =>
          let ar := heap_alloc s t
          ⟨.ok ar.2, { ar.1 with cache := (query, ar.2) :: ar.1.cache }, 1⟩
      | .error e => ⟨.error e, s, 1⟩

/-- Outcome of the queueing part of the `play` command. -/
structure PlayOut where
  state : RState
  queue_refs : List Nat
  result : Except ResolveErr Nat

/-- The part of the `play` command that touches resolver state: resolve the
query, then set `track_info["requester"]` on the returned dict — which *is*
the cache's own entry — and append that same dict to the queue.  (When
playback then starts, `start_playback` likewise writes `start_time` into the
same dict.) -/
def play_cmd (extract : YdlOpts → String → Except UpErr RawInfo) (env : Env)
    (s : RState) (queue_refs : List Nat) (query : String)
    (requester_name : String) : PlayOut :=
  let o := get_track_info extract env s query
  match o.result with
  | .error e => ⟨o.state, queue_refs, .error e⟩
  | .ok r =>
      let s1 := heap_modify o.state r (fun t => { t with requester := some requester_name })
      ⟨s1, queue_refs ++ [r], .ok r⟩

/-- An environment with no cookie file configured. -/
def env0 : Env := ⟨none, false⟩

/-- An upstream oracle that always succeeds with a fixed single-video info
record (no `entries` key). -/
def extract_ok : YdlOpts → String → Except UpErr RawInfo :=
  fun _ _ => .ok ⟨some "https://www.youtube.com/watch?v=1", some "https://stream/1",
    some "Song", some 100, none⟩

/-- An upstream oracle that always fails with a download error. -/
def extract_fail : YdlOpts → String → Except UpErr RawInfo :=
  fun _ _ => .error (.downloadError "HTTP Error 403")

/-- An upstream oracle whose result carries an `entries` container holding
zero entries. -/
def extract_empty_entries : YdlOpts → String → Except UpErr RawInfo :=
  fun _ _ => .ok ⟨none, none, none, none, some []⟩

/-- Counterexample to claim C4: the resolver is configured with exactly one
upstream access profile — `build_ydl_opts` always sets
`player_client = ["android"]`, a list of length 1, not more than one — and a
resolution makes exactly one upstream attempt (`upstream_calls = 1` on a
cache miss). -/
theorem claim_c4_counterexample :
    (build_ydl_opts env0 none).player_client = ["android"] ∧
    ¬ 1 < (build_ydl_opts env0 none).player_client.length ∧
    (get_track_info extract_fail env0 ⟨[], []⟩ "abc").upstream_calls = 1 := by
  refine ⟨rfl, by decide, rfl⟩

/-- Claim C4 as amended: the resolver attempts each request under the single
configured access profile; when that attempt fails, `get_track_info` returns
the classified error wrapping exactly that failure as its cause, makes one
upstream call, and creates no cache entry (the state is unchanged). -/
theorem resolve_failure_last_cause (extract : YdlOpts → String → Except UpErr RawInfo)
    (env : Env) (s : RState) (query : String) (e : UpErr)
    (hc : list_lookup s.cache query = none)
    (he : ∀ o u, extract o u = .error e) :
    ∃ m, get_track_info extract env s query = ⟨.error (.runtimeError m e), s, 1⟩ := by
  by_cases hu : youtube_url_match query = true
  · exact ⟨"yt-dlp url failed: " ++ up_err_msg e,
      by simp [get_track_info, hc, hu, ytdlp_from_url_sync, he]⟩
  · exact ⟨"yt-dlp search failed: " ++ up_err_msg e,
      by simp [get_track_info, hc, hu, ytdlp_search_one_sync, he]⟩

/-- Witness for `resolve_failure_last_cause`: an empty cache and an oracle
failing with a 403 download error; the resolution surfaces a classified
error with that cause and leaves the state unchanged. -/
theorem resolve_failure_last_cause_witness :
    list_lookup (RState.cache ⟨[], []⟩) "abc" = none ∧
    (∃ m, get_track_info extract_fail env0 ⟨[], []⟩ "abc" =
      ⟨.error (.runtimeError m (.downloadError "HTTP Error 403")), ⟨[], []⟩, 1⟩) :=
  ⟨rfl, resolve_failure_last_cause extract_fail env0 ⟨[], []⟩ "abc"
    (.downloadError "HTTP Error 403") rfl (fun _ _ => rfl)⟩

/-- First resolution of the query "abc" from an empty resolver state. -/
def c5_first : ResolveOut := get_track_info extract_ok env0 ⟨[], []⟩ "abc"

/-- A subsequent `play` request for the same query, issued by "alice". -/
def c5_after_play : PlayOut := play_cmd extract_ok env0 c5_first.state [] "abc" "alice"

/-- Second resolution of the same query after the `play` request. -/
def c5_second : ResolveOut := get_track_info extract_ok env0 c5_after_play.state "abc"

/-- Counterexample to claim C5: the second resolution of "abc" is a cache
hit (no upstream call) but does not return bit-identical metadata — the
intervening `play` wrote the requester into the cached dict itself, so the
second result differs from the first exactly by `requester = some "alice"`. -/
theorem claim_c5_counterexample :
    c5_first.result = .ok 0 ∧
    c5_second.result = .ok 0 ∧
    c5_second.upstream_calls = 0 ∧
    heap_read c5_second.state 0 ≠ heap_read c5_first.state 0 ∧
    heap_read c5_second.state 0 =
      { heap_read c5_first.state 0 with requester := some "alice" } := by
  refine ⟨rfl, rfl, rfl, by decide, by decide⟩

/-- Claim C5 as amended: a second resolution of a cached query consults the
cache before any upstream call, issues no upstream call, and returns the
stored entry itself with the state unchanged; but since the entry is the
same object the queue and playback mutate (requester, start timestamp), its
metadata need not be bit-identical to the first resolution's. -/
theorem cache_hit_no_upstream (extract : YdlOpts → String → Except UpErr RawInfo)
    (env : Env) (s : RState) (query : String) (r : Nat)
    (h : list_lookup s.cache query = some r) :
    get_track_info extract env s query = ⟨.ok r, s, 0⟩ := by
  simp [get_track_info, h]

/-- Witness for `cache_hit_no_upstream`: the state produced by `c5_after_play`
has "abc" cached at reference 0, and re-resolving returns it with zero
upstream calls. -/
theorem cache_hit_no_upstream_witness :
    list_lookup (RState.cache c5_after_play.state) "abc" = some 0 ∧
    get_track_info extract_ok env0 c5_after_play.state "abc" =
      ⟨.ok 0, c5_after_play.state, 0⟩ :=
  ⟨by decide, cache_hit_no_upstream extract_ok env0 c5_after_play.state "abc" 0 (by decide)⟩

/-- Claim C10: on the keyword-search path, an upstream response whose
`entries` container is present but empty makes `_ytdlp_search_one_sync`
raise the unclassified `IndexError` from `info["entries"][0]`; the
`except (DownloadError, ExtractorError)` wrapper does not classify it, and
the error propagates through `get_track_info` with no cache entry created. -/
theorem search_empty_entries_unclassified :
    ytdlp_search_one_sync extract_empty_entries env0 "some song" = .error .indexError ∧
    is_classified .indexError = false ∧
    (get_track_info extract_empty_entries env0 ⟨[], []⟩ "some song").result =
      .error .indexError ∧
    (get_track_info extract_empty_entries env0 ⟨[], []⟩ "some song").state = ⟨[], []⟩ := by
  refine ⟨rfl, rfl, rfl, rfl⟩
